import Mathlib

/-!
Shallow embedding of `app/main.py` from the agentic-commerce-protocol demo
repository: the path-normalization middleware, the memoized OpenAPI schema
builder (`custom_openapi`), and the `/healthz` handler, together with proofs
of the spec's claims about them.
-/

namespace ACP

/-! ### Path normalization

`NormalizePathMiddleware.dispatch` computes
`normalized_path = re.sub(r'/+', '/', path)`: every maximal run of `/`
characters in the path is replaced by a single `/`.  `subSlashes` realizes
that substitution on the character list of the path: a `/` immediately
followed by another `/` is dropped, so each maximal run keeps exactly one
of its slashes. -/

def subSlashes : List Char → List Char
  | [] => []
  | [c] => [c]
  | a :: b :: rest =>
      if a = '/' ∧ b = '/' then subSlashes (b :: rest)
      else a :: subSlashes (b :: rest)

/-- `re.sub(r'/+', '/', path)` on a Python `str`, i.e. on its sequence of
code points. -/
def normalizePath (s : String) : String := ⟨subSlashes s.data⟩

/-- `true` iff the character list contains two adjacent `/` characters,
i.e. iff the string contains a substring of two or more consecutive `/`. -/
def hasDoubleSlash : List Char → Bool
  | a :: b :: rest => if a = '/' ∧ b = '/' then true else hasDoubleSlash (b :: rest)
  | _ => false

theorem subSlashes_cons_head (a : Char) (rest : List Char) :
    ∃ t, subSlashes (a :: rest) = a :: t := by
  induction rest generalizing a with
  | nil => exact ⟨[], rfl⟩
  | cons b r ih =>
      by_cases h : a = '/' ∧ b = '/'
      · obtain ⟨t, ht⟩ := ih b
        refine ⟨t, ?_⟩
        rw [subSlashes, if_pos h, ht, h.1, h.2]
      · exact ⟨subSlashes (b :: r), by rw [subSlashes, if_neg h]⟩

theorem hasDoubleSlash_subSlashes (l : List Char) :
    hasDoubleSlash (subSlashes l) = false := by
  cases l with
  | nil => rfl
  | cons a rest =>
      induction rest generalizing a with
      | nil => rfl
      | cons b r ih =>
          by_cases h : a = '/' ∧ b = '/'
          · rw [subSlashes, if_pos h]; exact ih b
          · obtain ⟨t, ht⟩ := subSlashes_cons_head b r
            rw [subSlashes, if_neg h, ht, hasDoubleSlash, if_neg h]
            have hb := ih b
            rwa [ht] at hb

theorem subSlashes_of_no_double (l : List Char)
    (h : hasDoubleSlash l = false) : subSlashes l = l := by
  cases l with
  | nil => rfl
  | cons a rest =>
      induction rest generalizing a with
      | nil => rfl
      | cons b r ih =>
          by_cases hc : a = '/' ∧ b = '/'
          · rw [hasDoubleSlash, if_pos hc] at h
            exact absurd h (by simp)
          · rw [hasDoubleSlash, if_neg hc] at h
            rw [subSlashes, if_neg hc, ih b h]

theorem subSlashes_idem (l : List Char) :
    subSlashes (subSlashes l) = subSlashes l :=
  subSlashes_of_no_double _ (hasDoubleSlash_subSlashes l)

/-- Claim C1: path normalization is idempotent: for every input path string
`P`, normalizing twice yields the same result as normalizing once,
`normalizePath (normalizePath P) = normalizePath P`. -/
theorem normalize_idempotent (P : String) :
    normalizePath (normalizePath P) = normalizePath P := by
  show (⟨subSlashes (String.data ⟨subSlashes P.data⟩)⟩ : String) = ⟨subSlashes P.data⟩
  rw [show String.data ⟨subSlashes P.data⟩ = subSlashes P.data from rfl,
    subSlashes_idem]

/-- Claim C2: for every input path string `P`, the normalized path
`normalizePath P` contains no substring of two or more consecutive `/`
characters (no two adjacent code points of it are both `/`). -/
theorem normalize_no_double_slash (P : String) :
    hasDoubleSlash (normalizePath P).data = false :=
  hasDoubleSlash_subSlashes P.data

/-- Claim C9: path normalization is a total function over strings: for every
input path string it terminates and produces a string (the embedding
`normalizePath` is a total, structurally recursive Lean function, so no
failure or non-termination is possible). -/
theorem normalize_total (P : String) : ∃ r : String, normalizePath P = r :=
  ⟨normalizePath P, rfl⟩

/-! ### Python string primitives used by `custom_openapi`

`os.getenv("PUBLIC_BASE_URL", "")` yields the environment value or `""`;
`str.strip()` removes leading and trailing whitespace; `str.rstrip('/')`
removes trailing `/` characters; `str.startswith(p)` tests a prefix. -/

/-- Whitespace as stripped by Python `str.strip()` (the ASCII whitespace
code points; Python additionally strips some rarer Unicode whitespace,
irrelevant to the inputs considered here). -/
def isPySpace (c : Char) : Bool :=
  c = ' ' || c = '\t' || c = '\n' || c = '\x0d' || c = '\x0b' || c = '\x0c'

/-- Python `str.strip()`: drop leading and trailing whitespace. -/
def pyStrip (s : String) : String :=
  ⟨((s.data.dropWhile isPySpace).reverse.dropWhile isPySpace).reverse⟩

/-- Python `str.rstrip('/')`: drop trailing `/` characters. -/
def pyRstripSlash (s : String) : String :=
  ⟨(s.data.reverse.dropWhile (fun c => c = '/')).reverse⟩

/-- Python `s.startswith(p)`. -/
def startswith (p s : String) : Bool := p.data.isPrefixOf s.data

/-! ### OpenAPI schema builder (`custom_openapi`)

The schema document is modelled by the parts `custom_openapi` writes:
`servers` (a list of server URLs), `components.securitySchemes` (a mapping
from scheme names to scheme objects, in insertion order), and the global
`security` list (each entry a mapping from scheme name to scope list).
The base document produced by `get_openapi(...)` is modelled by the only
part of it `custom_openapi` reads: its optional `components` mapping with
an optional `securitySchemes` entry (the `setdefault` calls). -/

structure SecurityScheme where
  type : String
  inLoc : String
  name : String
  description : String
deriving DecidableEq, Repr

/-- The scheme object the source stores under `"ApiKeyAuth"`. -/
def apiKeyAuth : SecurityScheme :=
  { type := "apiKey"
    inLoc := "header"
    name := "X-API-Key"
    description := "Provide your API key in the X-API-Key header." }

structure Components where
  securitySchemes : Option (List (String × SecurityScheme))
deriving DecidableEq

structure BaseSchema where
  components : Option Components
deriving DecidableEq

structure OpenApiSchema where
  servers : List String
  components : Components
  security : List (List (String × List String))
deriving DecidableEq

/-- The mutable application state read and written by `custom_openapi`:
`app.openapi_schema`, `None` until the first computation. -/
structure AppState where
  openapi_schema : Option OpenApiSchema
deriving DecidableEq

/-- Python dict assignment `d[k] = v` on a mapping kept in insertion
order: replace the value at `k` if present, otherwise append `(k, v)`. -/
def setKey {α : Type} : List (String × α) → String → α → List (String × α)
  | [], k, v => [(k, v)]
  | (k₀, v₀) :: rest, k, v =>
      if k₀ = k then (k, v) :: rest else (k₀, v₀) :: setKey rest k v

/-- The literal fallback URL of the source. -/
def placeholderUrl : String := "https://replace-me.example.com"

/-- The server-URL computation of `custom_openapi`:
`base = os.getenv("PUBLIC_BASE_URL", "").strip()`; if `base` is truthy and
`base.startswith("https://")` then `base.rstrip('/')`, else the
placeholder.  `env` is the environment value of `PUBLIC_BASE_URL`
(`none` when unset). -/
def serverUrl (env : Option String) : String :=
  let base := pyStrip (env.getD "")
  if base ≠ "" ∧ startswith "https://" base = true then pyRstripSlash base
  else placeholderUrl

/-- `custom_openapi()`: return the cached schema if present; otherwise
build the schema from the generated base document, set `servers`,
insert the `ApiKeyAuth` security scheme (`setdefault` chain plus dict
assignment), set the global `security` list, cache and return it. -/
def custom_openapi (env : Option String) (base_schema : BaseSchema)
    (st : AppState) : OpenApiSchema × AppState :=
  match st.openapi_schema with
  | some cached => (cached, st)
  | none =>
      let components := base_schema.components.getD ⟨none⟩
      let security_schemes := components.securitySchemes.getD []
      let schema : OpenApiSchema :=
        { servers := [serverUrl env]
          components := ⟨some (setKey security_schemes "ApiKeyAuth" apiKeyAuth)⟩
          security := [[("ApiKeyAuth", [])]] }
      (schema, { openapi_schema := some schema })

/-! ### `/healthz` handler

The handler body is `return {"status": "ok"}`; the framework serves it
with its default status code 200.  It reads neither the environment nor
the application state, which the model makes explicit by passing both. -/

def healthz (_env : Option String) (_st : AppState) :
    Nat × List (String × String) :=
  (200, [("status", "ok")])

/-! ### `NormalizePathMiddleware.dispatch`

A request is its ASGI scope — the `path` entry plus the rest of the scope
and the receive channel, modelled by a field of arbitrary type `ρ` — and
`call_next` is the downstream handler.  When the normalized path differs
from the original, the source copies the scope, overwrites only `path`,
and rebuilds the request; otherwise it forwards the original request.
Either way it returns `call_next`'s response unchanged. -/

structure RequestScope (ρ : Type) where
  path : String
  rest : ρ
deriving DecidableEq

def rewrittenRequest {ρ : Type} (req : RequestScope ρ) : RequestScope ρ :=
  let normalized_path := normalizePath req.path
  if normalized_path ≠ req.path then { req with path := normalized_path }
  else req

def dispatch {ρ σ : Type} (req : RequestScope ρ)
    (call_next : RequestScope ρ → σ) : σ :=
  call_next (rewrittenRequest req)

/-! ### Theorems about the schema builder -/

theorem lookup_setKey {α : Type} (l : List (String × α)) (k : String) (v : α) :
    (setKey l k v).lookup k = some v := by
  induction l with
  | nil => simp [setKey, List.lookup]
  | cons p rest ih =>
      obtain ⟨k₀, v₀⟩ := p
      by_cases h : k₀ = k
      · subst h; simp [setKey, List.lookup]
      · rw [setKey, if_neg h, List.lookup]
        simp [beq_false_of_ne (Ne.symm h), ih]

theorem serverUrl_of_https (v : String) (h₁ : pyStrip v ≠ "")
    (h₂ : startswith "https://" (pyStrip v) = true) :
    serverUrl (some v) = pyRstripSlash (pyStrip v) := by
  show (if pyStrip v ≠ "" ∧ startswith "https://" (pyStrip v) = true
      then pyRstripSlash (pyStrip v) else placeholderUrl)
    = pyRstripSlash (pyStrip v)
  exact if_pos ⟨h₁, h₂⟩

theorem serverUrl_placeholder (env : Option String)
    (h : pyStrip (env.getD "") = "" ∨
      startswith "https://" (pyStrip (env.getD "")) = false) :
    serverUrl env = placeholderUrl := by
  show (if pyStrip (env.getD "") ≠ "" ∧
        startswith "https://" (pyStrip (env.getD "")) = true
      then pyRstripSlash (pyStrip (env.getD "")) else placeholderUrl)
    = placeholderUrl
  rw [if_neg]
  rintro ⟨h₁, h₂⟩
  rcases h with h | h
  · exact h₁ h
  · rw [h] at h₂; exact Bool.false_ne_true h₂

/-- Claim C3, counterexample: the environment value
`"https://api.example.com/ "` (trailing space) is non-empty and starts with
`https://`, yet the first schema computation does not set `servers[0]` to
that value with trailing `/` stripped (the code strips whitespace first,
producing `"https://api.example.com"`). -/
theorem servers_https_env_cex :
    ("https://api.example.com/ " : String) ≠ ""
    ∧ startswith "https://" "https://api.example.com/ " = true
    ∧ ((custom_openapi (some "https://api.example.com/ ") ⟨none⟩ ⟨none⟩).1).servers
        ≠ [pyRstripSlash "https://api.example.com/ "] := by
  refine ⟨by decide, by decide, ?_⟩
  show [serverUrl (some "https://api.example.com/ ")]
      ≠ [pyRstripSlash "https://api.example.com/ "]
  decide

/-- Claim C3 (amended): on the first schema computation, if the value of
`PUBLIC_BASE_URL` stripped of surrounding whitespace is non-empty and
starts with `https://`, then `servers[0]` is that stripped value with
trailing `/` characters removed. -/
theorem servers_https_env (v : String) (bs : BaseSchema)
    (h₁ : pyStrip v ≠ "")
    (h₂ : startswith "https://" (pyStrip v) = true) :
    ((custom_openapi (some v) bs ⟨none⟩).1).servers
      = [pyRstripSlash (pyStrip v)] := by
  show [serverUrl (some v)] = [pyRstripSlash (pyStrip v)]
  rw [serverUrl_of_https v h₁ h₂]

/-- Witness for C3 (amended) at `PUBLIC_BASE_URL = "https://api.example.com/"`:
the result is `"https://api.example.com"` (trailing slash stripped). -/
theorem servers_https_env_witness :
    pyStrip "https://api.example.com/" ≠ ""
    ∧ startswith "https://" (pyStrip "https://api.example.com/") = true
    ∧ ((custom_openapi (some "https://api.example.com/") ⟨none⟩ ⟨none⟩).1).servers
        = ["https://api.example.com"] := by
  refine ⟨by decide, by decide, ?_⟩
  rw [servers_https_env "https://api.example.com/" ⟨none⟩ (by decide) (by decide)]
  decide

/-- Claim C4, counterexample: the environment value
`" https://api.example.com"` (leading space) does not start with
`https://`, yet the first schema computation does not use the placeholder
(the code strips whitespace before testing the prefix and uses
`"https://api.example.com"`). -/
theorem servers_placeholder_cex :
    startswith "https://" " https://api.example.com" = false
    ∧ ((custom_openapi (some " https://api.example.com") ⟨none⟩ ⟨none⟩).1).servers
        ≠ [placeholderUrl] := by
  refine ⟨by decide, ?_⟩
  show [serverUrl (some " https://api.example.com")] ≠ [placeholderUrl]
  decide

/-- Claim C4 (amended): on the first schema computation, if
`PUBLIC_BASE_URL` is unset, or its whitespace-stripped value is empty or
does not start with `https://`, then `servers[0]` is the literal
placeholder `https://replace-me.example.com`; the computation is a total
function, so no error is raised. -/
theorem servers_placeholder (env : Option String) (bs : BaseSchema)
    (h : pyStrip (env.getD "") = "" ∨
      startswith "https://" (pyStrip (env.getD "")) = false) :
    ((custom_openapi env bs ⟨none⟩).1).servers = [placeholderUrl] := by
  show [serverUrl env] = [placeholderUrl]
  rw [serverUrl_placeholder env h]

/-- Witness for C4 (amended) at `PUBLIC_BASE_URL = "http://insecure.example.com"`
(non-https): the placeholder is used. -/
theorem servers_placeholder_witness :
    (pyStrip ((some "http://insecure.example.com").getD "") = "" ∨
      startswith "https://"
        (pyStrip ((some "http://insecure.example.com").getD "")) = false)
    ∧ ((custom_openapi (some "http://insecure.example.com") ⟨none⟩ ⟨none⟩).1).servers
        = [placeholderUrl] :=
  ⟨Or.inr (by decide),
    servers_placeholder (some "http://insecure.example.com") ⟨none⟩
      (Or.inr (by decide))⟩

/-- Claim C5: the schema builder is memoized: whenever the cache
`app.openapi_schema` holds a schema `s`, `custom_openapi` returns exactly
`s` and leaves the state exactly as it was — no recomputation and no
further mutation of the cache. -/
theorem custom_openapi_memoized (env : Option String) (bs : BaseSchema)
    (s : OpenApiSchema) :
    custom_openapi env bs ⟨some s⟩ = (s, ⟨some s⟩) := rfl

/-- Claim C6: for every environment value and every generated base
document, the schema produced by the first computation has
`components.securitySchemes.ApiKeyAuth` equal to
`{type: apiKey, in: header, name: X-API-Key, description: "Provide your
API key in the X-API-Key header."}` and a top-level `security` list
holding the single global requirement `{ApiKeyAuth: []}`. -/
theorem openapi_security_scheme (env : Option String) (bs : BaseSchema) :
    ∃ ss, (custom_openapi env bs ⟨none⟩).1.components.securitySchemes = some ss
      ∧ ss.lookup "ApiKeyAuth" = some
          { type := "apiKey", inLoc := "header", name := "X-API-Key",
            description := "Provide your API key in the X-API-Key header." }
      ∧ (custom_openapi env bs ⟨none⟩).1.security = [[("ApiKeyAuth", [])]] := by
  refine ⟨setKey ((bs.components.getD ⟨none⟩).securitySchemes.getD [])
    "ApiKeyAuth" apiKeyAuth, rfl, ?_, rfl⟩
  exact lookup_setKey _ _ _

/-- Claim C7: every request to `GET /healthz` returns status 200 with body
`{"status": "ok"}`, whatever the environment and whatever state prior
requests left behind. -/
theorem healthz_ok (env : Option String) (st : AppState) :
    healthz env st = (200, [("status", "ok")]) := rfl

/-- Claim C8: the middleware returns the downstream handler's response
unmodified, applied to a forwarded request whose non-path data is always
that of the original; the forwarded request has only its path replaced by
the normalized path when normalization changes it, and is the original
request unchanged otherwise. -/
theorem dispatch_frame {ρ σ : Type} (req : RequestScope ρ)
    (call_next : RequestScope ρ → σ) :
    dispatch req call_next = call_next (rewrittenRequest req)
    ∧ (rewrittenRequest req).rest = req.rest
    ∧ (normalizePath req.path ≠ req.path →
        rewrittenRequest req = { req with path := normalizePath req.path })
    ∧ (normalizePath req.path = req.path → rewrittenRequest req = req) := by
  have hrw : rewrittenRequest req =
      if normalizePath req.path ≠ req.path
      then { req with path := normalizePath req.path } else req := rfl
  refine ⟨rfl, ?_, ?_, ?_⟩
  · rw [hrw]; split <;> rfl
  · intro h; rw [hrw, if_pos h]
  · intro h; rw [hrw, if_neg (fun hne => hne h)]

/-- Witness for C8: the request for `//products///123` is forwarded with
path `/products/123` and otherwise-unchanged scope, and the handler's
response comes back unmodified. -/
theorem dispatch_frame_witness :
    dispatch (⟨"//products///123", 0⟩ : RequestScope Nat) (fun r => r.path)
        = "/products/123"
    ∧ rewrittenRequest (⟨"//products///123", 0⟩ : RequestScope Nat)
        = ⟨"/products/123", 0⟩ := by
  have h := dispatch_frame (ρ := Nat) (σ := String)
    ⟨"//products///123", 0⟩ (fun r => r.path)
  have h₃ := h.2.2.1 (by decide)
  have hval : normalizePath "//products///123" = "/products/123" := by decide
  rw [hval] at h₃
  exact ⟨by rw [h.1, h₃], h₃⟩

/-- Claim C10: with `PUBLIC_BASE_URL` equal to the bare scheme `https://`
(or the scheme followed only by further `/` characters), the https-prefix
check passes and the trailing-slash strip eats the scheme's slashes, so
the first schema computation sets `servers[0]` to `"https:"` — which is
neither the configured value nor the placeholder. -/
theorem bare_https_scheme_url (bs : BaseSchema) :
    ((custom_openapi (some "https://") bs ⟨none⟩).1).servers = ["https:"]
    ∧ ((custom_openapi (some "https:///") bs ⟨none⟩).1).servers = ["https:"]
    ∧ ("https:" : String) ≠ "https://"
    ∧ ("https:" : String) ≠ "https:///"
    ∧ ("https:" : String) ≠ placeholderUrl := by
  refine ⟨?_, ?_, by decide, by decide, by decide⟩
  · show [serverUrl (some "https://")] = ["https:"]
    decide
  · show [serverUrl (some "https:///")] = ["https:"]
    decide

end ACP
